import Mathlib

/-!
# Verification of the load-testing engine (src/LoadTesting/loadtesting.js)

A shallow embedding of the k6 load-testing script's core logic:
the backoff policy, the response-time bucketing, the backend-header
classifier, the `makeRequest` retry loop, the raw-data accumulation,
and the summary / verdict computation.  Times are modelled as natural
numbers of milliseconds (the source uses `Date.now()` differences,
which are integers); the summary arithmetic, which can produce IEEE-754
`NaN`, is modelled by an explicit `JsNum` type.
-/

/-- The `MAX_RETRIES` field of `TEST_CONFIG` (loadtesting.js line 72). -/
def MAX_RETRIES : Nat := 2

/-- Backoff delay for retry index `n ≥ 1`, from loadtesting.js line 149:
`Math.min(1000 * Math.pow(2, retryCount - 1), 2000)`. -/
def backoffDelay (n : Nat) : Nat :=
  min (1000 * 2 ^ (n - 1)) 2000

/-- `getResponseTimeBucket` from loadtesting.js lines 182–190, verbatim
translation of the `if` chain. -/
def getResponseTimeBucket (responseTime : Nat) : String :=
  if responseTime < 100 then "0-100ms"
  else if responseTime < 200 then "100-200ms"
  else if responseTime < 500 then "200-500ms"
  else if responseTime < 1000 then "500-1000ms"
  else if responseTime < 2000 then "1000-2000ms"
  else if responseTime < 5000 then "2000-5000ms"
  else "5000ms+"

/-- The seven bucket labels, in the order of the histogram initialiser in
`generateEnhancedHtmlReport` (loadtesting.js lines 289–292). -/
def bucketNames : List String :=
  ["0-100ms", "100-200ms", "200-500ms", "500-1000ms",
   "1000-2000ms", "2000-5000ms", "5000ms+"]

/-- Membership of a latency `t` in the bin labelled `b`, by the bin
boundaries 100, 200, 500, 1000, 2000, 5000 ms (half-open intervals,
plus the open-ended top bin). -/
def inBucket (t : Nat) (b : String) : Prop :=
  (b = "0-100ms" ∧ t < 100) ∨
  (b = "100-200ms" ∧ 100 ≤ t ∧ t < 200) ∨
  (b = "200-500ms" ∧ 200 ≤ t ∧ t < 500) ∨
  (b = "500-1000ms" ∧ 500 ≤ t ∧ t < 1000) ∨
  (b = "1000-2000ms" ∧ 1000 ≤ t ∧ t < 2000) ∨
  (b = "2000-5000ms" ∧ 2000 ≤ t ∧ t < 5000) ∨
  (b = "5000ms+" ∧ 5000 ≤ t)

/-- The three backend-identifying response headers consulted by
`makeRequest` (loadtesting.js lines 106–108).  `none` models a header
absent from `response.headers`. -/
structure Headers where
  xBackendServer : Option String
  xServer : Option String
  server : Option String
deriving DecidableEq

/-- JavaScript `a || b` on a possibly-absent string `a`: an absent header
(`undefined`) and an empty string are both falsy, so both fall through
to `b`. -/
def jsOrElse (v : Option String) (b : String) : String :=
  match v with
  | some s => if s = "" then b else s
  | none => b

/-- The backend classifier of loadtesting.js lines 106–109:
`headers['X-Backend-Server'] || headers['X-Server'] || headers['Server']
|| 'unknown'`. -/
def backendOf (h : Headers) : String :=
  jsOrElse h.xBackendServer (jsOrElse h.xServer (jsOrElse h.server "unknown"))

/-- The spec's wording of the classifier: "returns the first present
value among an ordered list of header lookups …; if none present,
returns an `unknown` sentinel".  Presence alone decides, regardless of
the value. -/
def backendOfSpec (h : Headers) : String :=
  match h.xBackendServer with
  | some s => s
  | none =>
    match h.xServer with
    | some s => s
    | none =>
      match h.server with
      | some s => s
      | none => "unknown"

/-- A present, non-empty header value, or `none` otherwise. -/
def nonempty (v : Option String) : Option String :=
  match v with
  | some s => if s = "" then none else some s
  | none => none

/-- The first header that is present with a non-empty value, if any. -/
def firstNonemptyHeader (h : Headers) : Option String :=
  match nonempty h.xBackendServer with
  | some s => some s
  | none =>
    match nonempty h.xServer with
    | some s => some s
    | none => nonempty h.server

/-- One physical attempt's observable result: the HTTP status returned by
`http.get` (status `0` is k6's sentinel for a transport failure), the
response headers, and the attempt's elapsed time in ms. -/
structure AttemptResult where
  status : Nat
  headers : Headers
  duration : Nat
deriving DecidableEq

/-- The `check` call of loadtesting.js lines 100–103: the attempt is
successful iff `status === 200` (which subsumes `status !== 0`). -/
def attemptOk (r : AttemptResult) : Bool :=
  r.status = 200

/-- The value returned by `makeRequest` (loadtesting.js lines 136–142 on
success, 173–179 on failure).  `status` is `some 200` on success and
`none` for the string sentinel `'failed'`. -/
structure RequestOutcome where
  success : Bool
  responseTime : Nat
  backend : String
  retries : Nat
  status : Option Nat
deriving DecidableEq

/-- A whole run of `makeRequest`: the returned outcome together with the
final clock value, the number of physical attempts performed, and the
total time spent in backoff `sleep`s. -/
structure RunResult where
  outcome : RequestOutcome
  endTime : Nat
  attemptsMade : Nat
  totalWait : Nat
deriving DecidableEq

/-- The `while (retryCount <= MAX_RETRIES)` loop of `makeRequest`
(loadtesting.js lines 92–152) followed by the failure epilogue
(lines 154–179).  `resp k` is the response `http.get` yields on the
attempt with `retryCount = k`; `now` is the current clock, `acc` the
number of attempts made so far, `wait` the backoff time accumulated so
far.  `fuel` bounds the remaining iterations; the top-level call passes
`maxRetries + 1`, which the loop guard never exhausts, so the `fuel = 0`
branch (returning the failure epilogue's value with a zero clock
reading) is unreachable from `makeRequest`. -/
def makeRequestLoop (maxRetries : Nat) (resp : Nat → AttemptResult) :
    Nat → Nat → Nat → Nat → Nat → RunResult
  | 0, _, now, acc, wait =>
    { outcome := { success := false, responseTime := 0, backend := "error",
                   retries := maxRetries, status := none },
      endTime := now, attemptsMade := acc, totalWait := wait }
  | fuel + 1, retryCount, now, acc, wait =>
    if attemptOk (resp retryCount) then
      { outcome := { success := true,
                     responseTime := now + (resp retryCount).duration - now,
                     backend := backendOf (resp retryCount).headers,
                     retries := retryCount,
                     status := some (resp retryCount).status },
        endTime := now + (resp retryCount).duration,
        attemptsMade := acc + 1, totalWait := wait }
    else
      if retryCount + 1 ≤ maxRetries then
        makeRequestLoop maxRetries resp fuel (retryCount + 1)
          (now + (resp retryCount).duration + backoffDelay (retryCount + 1))
          (acc + 1) (wait + backoffDelay (retryCount + 1))
      else
        { outcome := { success := false,
                       responseTime := now + (resp retryCount).duration - now,
                       backend := "error", retries := maxRetries, status := none },
          endTime := now + (resp retryCount).duration,
          attemptsMade := acc + 1, totalWait := wait }

/-- `makeRequest` (loadtesting.js lines 81–180): runs the retry loop from
`retryCount = 0` starting at clock `t0` (= `requestStartTime`). -/
def makeRequest (maxRetries : Nat) (resp : Nat → AttemptResult) (t0 : Nat) : RunResult :=
  makeRequestLoop maxRetries resp (maxRetries + 1) 0 t0 0 0

/-- The `rawData` accumulator of loadtesting.js lines 19–26: parallel
lists grown by `push` on every completed logical request (lines 123–127
on success, 166–170 on failure). -/
structure RawData where
  requests : List RequestOutcome
  responseTimes : List Nat
  backends : List String
  retries : List Nat
deriving DecidableEq

/-- The empty `rawData` initial state. -/
def emptyRawData : RawData :=
  { requests := [], responseTimes := [], backends := [], retries := [] }

/-- The `rawData.*.push(...)` statements executed once per logical
request by `makeRequest` (loadtesting.js lines 123–127 and 166–170):
both the success path and the failure path append the outcome's
response time, backend and retry count to the growing lists. -/
def recordOutcome (rd : RawData) (o : RequestOutcome) : RawData :=
  { requests := rd.requests ++ [o],
    responseTimes := rd.responseTimes ++ [o.responseTime],
    backends := rd.backends ++ [o.backend],
    retries := rd.retries ++ [o.retries] }

/-- The state of `rawData` after recording a list of outcomes in order. -/
def recordAll (os : List RequestOutcome) : RawData :=
  os.foldl recordOutcome emptyRawData

/-- The per-bucket count computed by `generateEnhancedHtmlReport`
(loadtesting.js lines 294–297): the number of recorded response times
that `getResponseTimeBucket` maps to the label `b`. -/
def histogramCount (rts : List Nat) (b : String) : Nat :=
  (rts.filter (fun t => getResponseTimeBucket t = b)).length

/-- The sum of all per-bucket counts of the report's histogram. -/
def histogramTotal (rts : List Nat) : Nat :=
  (bucketNames.map (histogramCount rts)).sum

/-- A JavaScript number as used in `handleSummary`: a finite value
(exact rational), `NaN`, or a signed infinity.  IEEE-754 doubles also
round, but every operation `handleSummary` performs on the inputs we
examine is exact, so rationals model the finite values faithfully. -/
inductive JsNum where
  | num (q : ℚ)
  | nan
  | inf
  | ninf
deriving DecidableEq

/-- JavaScript subtraction. -/
def jsSub : JsNum → JsNum → JsNum
  | .nan, _ => .nan
  | _, .nan => .nan
  | .num a, .num b => .num (a - b)
  | .num _, .inf => .ninf
  | .num _, .ninf => .inf
  | .inf, .inf => .nan
  | .inf, _ => .inf
  | .ninf, .ninf => .nan
  | .ninf, _ => .ninf

/-- JavaScript multiplication (`0 * ±Infinity` is `NaN`). -/
def jsMul : JsNum → JsNum → JsNum
  | .nan, _ => .nan
  | _, .nan => .nan
  | .num a, .num b => .num (a * b)
  | .num a, .inf => if a = 0 then .nan else if 0 < a then .inf else .ninf
  | .num a, .ninf => if a = 0 then .nan else if 0 < a then .ninf else .inf
  | .inf, .num b => if b = 0 then .nan else if 0 < b then .inf else .ninf
  | .ninf, .num b => if b = 0 then .nan else if 0 < b then .ninf else .inf
  | .inf, .inf => .inf
  | .inf, .ninf => .ninf
  | .ninf, .inf => .ninf
  | .ninf, .ninf => .inf

/-- JavaScript division (`0 / 0` is `NaN`, `x / 0` is `±Infinity` for
`x ≠ 0`, `x / ±Infinity` is `0`). -/
def jsDiv : JsNum → JsNum → JsNum
  | .nan, _ => .nan
  | _, .nan => .nan
  | .num a, .num b =>
    if b = 0 then (if a = 0 then .nan else if 0 < a then .inf else .ninf)
    else .num (a / b)
  | .num _, .inf => .num 0
  | .num _, .ninf => .num 0
  | .inf, .num b => if 0 ≤ b then .inf else .ninf
  | .ninf, .num b => if 0 ≤ b then .ninf else .inf
  | .inf, _ => .nan
  | .ninf, _ => .nan

/-- JavaScript `>=`; any comparison with `NaN` is false. -/
def jsGe : JsNum → JsNum → Bool
  | .num a, .num b => b ≤ a
  | .nan, _ => false
  | _, .nan => false
  | .inf, _ => true
  | _, .inf => false
  | _, .ninf => true
  | .ninf, _ => false

/-- JavaScript `<`; any comparison with `NaN` is false. -/
def jsLt : JsNum → JsNum → Bool
  | .num a, .num b => a < b
  | .nan, _ => false
  | _, .nan => false
  | .inf, _ => false
  | _, .inf => true
  | .ninf, .ninf => false
  | .ninf, _ => true
  | _, .ninf => false

/-- The success-rate computation of `handleSummary` (loadtesting.js
lines 224–226): `failedRequests = http_req_failed.rate * totalRequests`
and `successRate = ((totalRequests - failedRequests) / totalRequests) * 100`. -/
def summarySuccessRate (totalRequests failedRate : JsNum) : JsNum :=
  jsMul (jsDiv (jsSub totalRequests (jsMul failedRate totalRequests)) totalRequests)
    (.num 100)

/-- The performance-assessment conditional of `handleSummary`
(loadtesting.js lines 254–262), reduced to its four tier labels. -/
def performanceVerdict (successRate p95 : JsNum) : String :=
  if jsGe successRate (.num 95) && jsLt p95 (.num 1000) then "EXCELLENT"
  else if jsGe successRate (.num 90) && jsLt p95 (.num 2000) then "GOOD"
  else if jsGe successRate (.num 80) && jsLt p95 (.num 5000) then "ACCEPTABLE"
  else "NEEDS WORK"

/-- The four tier labels printed by `handleSummary`, in order. -/
def verdictTiers : List String :=
  ["EXCELLENT", "GOOD", "ACCEPTABLE", "NEEDS WORK"]

/-- No backend-identifying header of `h` carries the value `s`. -/
def headersAvoid (h : Headers) (s : String) : Prop :=
  h.xBackendServer ≠ some s ∧ h.xServer ≠ some s ∧ h.server ≠ some s

/-- A responder whose every attempt succeeds with status 200 and backend
header `node-7` (scenario A's endpoint). -/
def node7Resp : Nat → AttemptResult :=
  fun _ => { status := 200, headers := ⟨some "node-7", none, none⟩, duration := 40 }

/-- A responder that always returns status 500 (scenario B's endpoint). -/
def alwaysFailResp : Nat → AttemptResult :=
  fun _ => { status := 500, headers := ⟨none, none, none⟩, duration := 30 }

/-- A responder failing on attempts 0 and 1 and succeeding on attempt 2
(scenario C's endpoint). -/
def scenarioCResp : Nat → AttemptResult :=
  fun k =>
    if k < 2 then { status := 500, headers := ⟨none, none, none⟩, duration := 50 }
    else { status := 200, headers := ⟨some "node-7", none, none⟩, duration := 40 }

/-- A responder always succeeding, whose primary backend header carries
the literal string `error`. -/
def errorHeaderResp : Nat → AttemptResult :=
  fun _ => { status := 200, headers := ⟨some "error", none, none⟩, duration := 50 }

/-- A responder failing attempt 0 and succeeding on attempt 1, both
attempts taking 50 ms. -/
def failThenOkResp : Nat → AttemptResult :=
  fun k =>
    if k = 0 then { status := 500, headers := ⟨none, none, none⟩, duration := 50 }
    else { status := 200, headers := ⟨some "node-7", none, none⟩, duration := 50 }

/-- A responder always succeeding, whose primary backend header is
present but empty and whose secondary header is `node-2`. -/
def emptyHeaderResp : Nat → AttemptResult :=
  fun _ => { status := 200, headers := ⟨some "", some "node-2", none⟩, duration := 50 }

/-! ## Helper lemmas -/


/-- Folding `recordOutcome` appends exactly one response time per outcome. -/
theorem foldl_record_length (os : List RequestOutcome) :
    ∀ rd : RawData,
      (os.foldl recordOutcome rd).responseTimes.length
        = rd.responseTimes.length + os.length := by
  induction os with
  | nil => intro rd; simp
  | cons o os ih =>
    intro rd
    simp only [List.foldl_cons, ih, recordOutcome, List.length_append]
    simp
    omega

/-- `recordAll` retains one response time per recorded outcome. -/
theorem recordAll_length (os : List RequestOutcome) :
    (recordAll os).responseTimes.length = os.length := by
  unfold recordAll
  rw [foldl_record_length]
  simp [emptyRawData]

/-- Every latency falls in exactly one bucket: the indicator vector over
the seven labels sums to one. -/
theorem bucket_indicator (t : Nat) :
    (bucketNames.map fun b => if getResponseTimeBucket t = b then 1 else 0).sum = 1 := by
  unfold getResponseTimeBucket bucketNames
  split_ifs <;> decide

/-- Adding one latency increments exactly the count of its own bucket. -/
theorem histogramCount_cons (t : Nat) (ts : List Nat) (b : String) :
    histogramCount (t :: ts) b
      = (if getResponseTimeBucket t = b then 1 else 0) + histogramCount ts b := by
  unfold histogramCount
  rw [List.filter_cons]
  simp only [decide_eq_true_eq]
  split_ifs with h
  · simp only [List.length_cons]
    omega
  · omega

/-- The histogram total goes up by one per recorded latency. -/
theorem histogramTotal_cons (t : Nat) (ts : List Nat) :
    histogramTotal (t :: ts) = 1 + histogramTotal ts := by
  have hind := bucket_indicator t
  simp only [bucketNames, List.map_cons, List.map_nil, List.sum_cons, List.sum_nil] at hind
  unfold histogramTotal
  simp only [bucketNames, List.map_cons, List.map_nil, List.sum_cons, List.sum_nil,
    histogramCount_cons]
  omega

/-- The bucket counts of the report's histogram always sum to the number
of recorded latencies. -/
theorem histogramTotal_eq_length (rts : List Nat) :
    histogramTotal rts = rts.length := by
  induction rts with
  | nil => decide
  | cons t ts ih => rw [histogramTotal_cons, ih, List.length_cons]; omega

/-- Invariant of the retry loop.  Entered with `retryCount + fuel =
maxRetries + 1` (as the top-level call is), the loop returns: on
success, the retry count of the succeeding attempt, bounded by
`maxRetries`, that attempt's classified backend, and that attempt's
duration as the reported response time (with the end clock pinned down
when the first attempt already succeeds); on failure, `retries =
maxRetries`, the `"error"` backend sentinel, and the last attempt's
duration as the reported response time. -/
theorem makeRequestLoop_spec (maxRetries : Nat) (resp : Nat → AttemptResult) :
    ∀ fuel retryCount now acc wait, retryCount + fuel = maxRetries + 1 →
      ((makeRequestLoop maxRetries resp fuel retryCount now acc wait).outcome.success = true →
        retryCount ≤ (makeRequestLoop maxRetries resp fuel retryCount now acc wait).outcome.retries ∧
        (makeRequestLoop maxRetries resp fuel retryCount now acc wait).outcome.retries ≤ maxRetries ∧
        (resp (makeRequestLoop maxRetries resp fuel retryCount now acc wait).outcome.retries).status = 200 ∧
        (makeRequestLoop maxRetries resp fuel retryCount now acc wait).outcome.backend
          = backendOf (resp (makeRequestLoop maxRetries resp fuel retryCount now acc wait).outcome.retries).headers ∧
        (makeRequestLoop maxRetries resp fuel retryCount now acc wait).outcome.responseTime
          = (resp (makeRequestLoop maxRetries resp fuel retryCount now acc wait).outcome.retries).duration ∧
        ((makeRequestLoop maxRetries resp fuel retryCount now acc wait).outcome.retries = retryCount →
          (makeRequestLoop maxRetries resp fuel retryCount now acc wait).endTime
            = now + (resp retryCount).duration)) ∧
      ((makeRequestLoop maxRetries resp fuel retryCount now acc wait).outcome.success = false →
        (makeRequestLoop maxRetries resp fuel retryCount now acc wait).outcome.retries = maxRetries ∧
        (makeRequestLoop maxRetries resp fuel retryCount now acc wait).outcome.backend = "error" ∧
        (1 ≤ fuel →
          (makeRequestLoop maxRetries resp fuel retryCount now acc wait).outcome.responseTime
            = (resp maxRetries).duration)) := by
  intro fuel
  induction fuel with
  | zero =>
    intro rc now acc wait h
    simp [makeRequestLoop]
  | succ fuel ih =>
    intro rc now acc wait h
    by_cases hok : attemptOk (resp rc)
    · have hst : (resp rc).status = 200 := by
        simpa [attemptOk] using hok
      simp [makeRequestLoop, hok, hst]
      omega
    · by_cases hretry : rc + 1 ≤ maxRetries
      · have hrec := ih (rc + 1) (now + (resp rc).duration + backoffDelay (rc + 1))
          (acc + 1) (wait + backoffDelay (rc + 1)) (by omega)
        simp only [makeRequestLoop, if_neg hok, if_pos hretry]
        constructor
        · intro hsucc
          obtain ⟨h1, h2, h3, h4, h5, _⟩ := hrec.1 hsucc
          exact ⟨by omega, h2, h3, h4, h5, by omega⟩
        · intro hfail
          obtain ⟨h1, h2, h3⟩ := hrec.2 hfail
          exact ⟨h1, h2, fun _ => h3 (by omega)⟩
      · have hrc : rc = maxRetries := by omega
        subst hrc
        simp [makeRequestLoop, hok, hretry]

/-- When every attempt fails, the loop consumes all its fuel: one
physical attempt per remaining retry budget, ending in failure. -/
theorem makeRequestLoop_allFail (maxRetries : Nat) (resp : Nat → AttemptResult)
    (hall : ∀ k, (resp k).status ≠ 200) :
    ∀ fuel retryCount now acc wait, retryCount + fuel = maxRetries + 1 →
      (makeRequestLoop maxRetries resp fuel retryCount now acc wait).attemptsMade
          = acc + fuel ∧
        (makeRequestLoop maxRetries resp fuel retryCount now acc wait).outcome.success
          = false := by
  intro fuel
  induction fuel with
  | zero =>
    intro rc now acc wait h
    simp [makeRequestLoop]
  | succ fuel ih =>
    intro rc now acc wait h
    have hok : ¬ attemptOk (resp rc) := by
      simp [attemptOk, hall rc]
    by_cases hretry : rc + 1 ≤ maxRetries
    · have hrec := ih (rc + 1) (now + (resp rc).duration + backoffDelay (rc + 1))
        (acc + 1) (wait + backoffDelay (rc + 1)) (by omega)
      simp only [makeRequestLoop, if_neg hok, if_pos hretry]
      exact ⟨by omega, hrec.2⟩
    · have hfuel : fuel = 0 := by omega
      simp [makeRequestLoop, hok, hretry, hfuel]

/-! ## Claim theorems -/

/-- C1: refuted on the code — `makeRequest` pushes every raw sample into
the `rawData` lists, so after `n` recorded outcomes the aggregation
state holds `n` retained samples; no constant bounds it independently
of the number of record operations. -/
theorem rawData_growth_unbounded :
    (∀ os : List RequestOutcome, (recordAll os).responseTimes.length = os.length) ∧
      ¬∃ C : Nat, ∀ os : List RequestOutcome,
          (recordAll os).responseTimes.length ≤ C := by
  refine ⟨recordAll_length, ?_⟩
  rintro ⟨C, hC⟩
  have h := hC (List.replicate (C + 1) ⟨true, 0, "unknown", 0, some 200⟩)
  rw [recordAll_length, List.length_replicate] at h
  omega

/-- C3: refuted on the code — with zero recorded requests,
`handleSummary`'s success-rate computation `((total - rate * total) /
total) * 100` evaluates to `NaN` (whether k6 reports the failure rate of
an empty sample as `0` or as `NaN`), and the verdict conditional then
falls through every `NaN` comparison to the ordinary `NEEDS WORK` tier:
no explicit insufficient-data state exists. -/
theorem summary_zero_requests_is_nan :
    summarySuccessRate (.num 0) (.num 0) = .nan ∧
      summarySuccessRate (.num 0) .nan = .nan ∧
      performanceVerdict .nan .nan = "NEEDS WORK" ∧
      "NEEDS WORK" ∈ verdictTiers := by
  refine ⟨?_, ?_, ?_, ?_⟩ <;>
    norm_num [summarySuccessRate, jsMul, jsSub, jsDiv, performanceVerdict, jsGe, jsLt,
      verdictTiers]

/-- C5: for every retry index `n ≥ 1` the backoff delay is
`min(1000 * 2 ^ (n - 1), 2000)` and delays are monotonically
non-decreasing in the retry index. -/
theorem backoff_formula_and_monotone (n m : Nat) (h1 : 1 ≤ n) (hnm : n ≤ m) :
    backoffDelay n = min (1000 * 2 ^ (n - 1)) 2000 ∧
      backoffDelay n ≤ backoffDelay m := by
  refine ⟨rfl, ?_⟩
  unfold backoffDelay
  exact min_le_min
    (Nat.mul_le_mul (le_refl 1000) (Nat.pow_le_pow_right (by norm_num) (by omega)))
    (le_refl 2000)

/-- C5 witness: the formula and monotonicity instantiated at retry
indices 1 and 2. -/
theorem backoff_formula_and_monotone_witness :
    (1 ≤ 1 ∧ (1 : Nat) ≤ 2) ∧
      (backoffDelay 1 = min (1000 * 2 ^ (1 - 1)) 2000 ∧
        backoffDelay 1 ≤ backoffDelay 2) :=
  ⟨⟨le_refl 1, by decide⟩, backoff_formula_and_monotone 1 2 (le_refl 1) (by decide)⟩

/-- C6: `getResponseTimeBucket` is a total deterministic partition of the
non-negative latencies: every latency lands in a bucket from the fixed
list, and membership in the bin delimited by the boundaries 100, 200,
500, 1000, 2000, 5000 ms holds for exactly the bucket the function
returns — no gap, no overlap. -/
theorem bucket_total_partition (t : Nat) :
    getResponseTimeBucket t ∈ bucketNames ∧
      ∀ b : String, inBucket t b ↔ b = getResponseTimeBucket t := by
  constructor
  · unfold getResponseTimeBucket bucketNames
    split_ifs <;> simp
  · intro b
    unfold getResponseTimeBucket inBucket
    split_ifs with h1 h2 h3 h4 h5 h6 <;>
      refine ⟨?_, ?_⟩ <;>
        first
          | (rintro (⟨hb, ht⟩ | ⟨hb, ht⟩ | ⟨hb, ht⟩ | ⟨hb, ht⟩ | ⟨hb, ht⟩ | ⟨hb, ht⟩ |
                ⟨hb, ht⟩) <;>
              (subst hb; first | rfl | (exfalso; omega)))
          | (rintro rfl; simp; omega)

/-- C7: the verdict conditional realises exactly the four ordered tiers
with the source's thresholds, and the 9,500-successes / 500-failures /
p95 = 900 ms scenario is classified `EXCELLENT`. -/
theorem verdict_tiers_and_scenarioE :
    (∀ s p : ℚ,
        (performanceVerdict (.num s) (.num p) = "EXCELLENT" ↔ 95 ≤ s ∧ p < 1000) ∧
        (performanceVerdict (.num s) (.num p) = "GOOD" ↔
          ¬(95 ≤ s ∧ p < 1000) ∧ 90 ≤ s ∧ p < 2000) ∧
        (performanceVerdict (.num s) (.num p) = "ACCEPTABLE" ↔
          ¬(95 ≤ s ∧ p < 1000) ∧ ¬(90 ≤ s ∧ p < 2000) ∧ 80 ≤ s ∧ p < 5000) ∧
        (performanceVerdict (.num s) (.num p) = "NEEDS WORK" ↔
          ¬(95 ≤ s ∧ p < 1000) ∧ ¬(90 ≤ s ∧ p < 2000) ∧ ¬(80 ≤ s ∧ p < 5000))) ∧
      performanceVerdict (summarySuccessRate (.num 10000) (.num (1 / 20))) (.num 900)
        = "EXCELLENT" := by
  constructor
  · intro s p
    simp only [performanceVerdict, jsGe, jsLt, Bool.and_eq_true, decide_eq_true_eq]
    split_ifs with h1 h2 h3 <;> simp_all
  · norm_num [performanceVerdict, summarySuccessRate, jsMul, jsSub, jsDiv, jsGe, jsLt]

/-- C9: the per-bucket counts of the report's latency histogram sum to
the number of recorded latencies, and `rawData` records one latency per
outcome (successes and failures alike). -/
theorem histogram_sum_matches_total (rts : List Nat) (os : List RequestOutcome) :
    histogramTotal rts = rts.length ∧
      histogramTotal (recordAll os).responseTimes = os.length := by
  refine ⟨histogramTotal_eq_length rts, ?_⟩
  rw [histogramTotal_eq_length, recordAll_length]

/-- The JS fallback chain never produces `s` when neither the lookup
value nor the default equals `s`. -/
theorem jsOrElse_ne (v : Option String) (b s : String) (hv : v ≠ some s)
    (hb : b ≠ s) : jsOrElse v b ≠ s := by
  cases v with
  | none => simpa [jsOrElse] using hb
  | some x =>
    simp only [jsOrElse]
    split_ifs with hx
    · exact hb
    · intro hxs
      exact hv (by rw [hxs])

/-- If no header of `h` carries the value `error`, the classified
backend differs from the `error` sentinel. -/
theorem backendOf_ne_error (h : Headers) (hav : headersAvoid h "error") :
    backendOf h ≠ "error" :=
  jsOrElse_ne _ _ _ hav.1
    (jsOrElse_ne _ _ _ hav.2.1 (jsOrElse_ne _ _ _ hav.2.2 (by decide)))

/-- C2 counterexample: a run whose only attempt succeeds with status 200
but carries `X-Backend-Server: error` yields a successful outcome whose
backend identifier is the error sentinel itself. -/
theorem success_with_error_backend :
    (makeRequest 2 errorHeaderResp 0).outcome.success = true ∧
      (makeRequest 2 errorHeaderResp 0).outcome.backend = "error" := by
  decide

/-- C2 (amended): provided no attempt's response carries a
backend-identifying header whose value is the literal string `error`,
every outcome of `makeRequest` satisfies the invariant: success implies
`retries ≤ maxRetries` and a backend different from the error sentinel;
failure implies `retries = maxRetries` and the error-sentinel backend. -/
theorem outcome_invariant (maxRetries t0 : Nat) (resp : Nat → AttemptResult)
    (hav : ∀ k, headersAvoid (resp k).headers "error") :
    ((makeRequest maxRetries resp t0).outcome.success = true →
        (makeRequest maxRetries resp t0).outcome.retries ≤ maxRetries ∧
        (makeRequest maxRetries resp t0).outcome.backend ≠ "error") ∧
    ((makeRequest maxRetries resp t0).outcome.success = false →
        (makeRequest maxRetries resp t0).outcome.retries = maxRetries ∧
        (makeRequest maxRetries resp t0).outcome.backend = "error") := by
  have hs := makeRequestLoop_spec maxRetries resp (maxRetries + 1) 0 t0 0 0 (by omega)
  unfold makeRequest
  refine ⟨fun h => ?_, fun h => ?_⟩
  · obtain ⟨-, h2, -, hb, -, -⟩ := hs.1 h
    refine ⟨h2, ?_⟩
    rw [hb]
    exact backendOf_ne_error _ (hav _)
  · obtain ⟨h1, h2, -⟩ := hs.2 h
    exact ⟨h1, h2⟩

/-- C2 witness: the amended invariant applied to the scenario-A endpoint
(status 200 with backend header `node-7` on every attempt). -/
theorem outcome_invariant_witness :
    (∀ k : Nat, headersAvoid (node7Resp k).headers "error") ∧
      (((makeRequest 2 node7Resp 0).outcome.success = true →
          (makeRequest 2 node7Resp 0).outcome.retries ≤ 2 ∧
          (makeRequest 2 node7Resp 0).outcome.backend ≠ "error") ∧
        ((makeRequest 2 node7Resp 0).outcome.success = false →
          (makeRequest 2 node7Resp 0).outcome.retries = 2 ∧
          (makeRequest 2 node7Resp 0).outcome.backend = "error")) :=
  ⟨fun k => ⟨by simp [node7Resp], by simp [node7Resp], by simp [node7Resp]⟩,
    outcome_invariant 2 0 node7Resp
      (fun k => ⟨by simp [node7Resp], by simp [node7Resp], by simp [node7Resp]⟩)⟩

/-- C4: when every attempt fails, one `makeRequest` invocation performs
exactly `maxRetries + 1` physical attempts and returns a failed outcome;
and in scenario C (attempts 0 and 1 fail, attempt 2 succeeds,
`maxRetries = 2`) the outcome is successful with `retries = 2` and total
backoff wait `backoffDelay 1 + backoffDelay 2`. -/
theorem retry_exhaustion_and_scenarioC (maxRetries t0 : Nat)
    (resp : Nat → AttemptResult) (hall : ∀ k, (resp k).status ≠ 200) :
    ((makeRequest maxRetries resp t0).attemptsMade = maxRetries + 1 ∧
        (makeRequest maxRetries resp t0).outcome.success = false) ∧
      ((makeRequest 2 scenarioCResp 0).outcome.success = true ∧
        (makeRequest 2 scenarioCResp 0).outcome.retries = 2 ∧
        (makeRequest 2 scenarioCResp 0).totalWait = backoffDelay 1 + backoffDelay 2) := by
  constructor
  · have h := makeRequestLoop_allFail maxRetries resp hall (maxRetries + 1) 0 t0 0 0
      (by omega)
    unfold makeRequest
    exact ⟨by rw [h.1]; omega, h.2⟩
  · decide

/-- C4 witness: the all-attempts-fail conclusion applied to the
scenario-B endpoint (status 500 on every attempt, `maxRetries = 2`). -/
theorem retry_exhaustion_and_scenarioC_witness :
    (∀ k : Nat, (alwaysFailResp k).status ≠ 200) ∧
      (((makeRequest 2 alwaysFailResp 0).attemptsMade = 2 + 1 ∧
          (makeRequest 2 alwaysFailResp 0).outcome.success = false) ∧
        ((makeRequest 2 scenarioCResp 0).outcome.success = true ∧
          (makeRequest 2 scenarioCResp 0).outcome.retries = 2 ∧
          (makeRequest 2 scenarioCResp 0).totalWait
            = backoffDelay 1 + backoffDelay 2)) :=
  ⟨fun k => by simp [alwaysFailResp],
    retry_exhaustion_and_scenarioC 2 0 alwaysFailResp (fun k => by simp [alwaysFailResp])⟩

/-- C8 counterexample: attempt 0 fails after 50 ms, attempt 1 succeeds
after 50 ms; the outcome reports a duration of 50 ms while the wall
clock from the first attempt's start to resolution is 50 + 1000
(backoff) + 50 = 1100 ms. -/
theorem reported_duration_not_wall_clock :
    (makeRequest 2 failThenOkResp 0).outcome.responseTime = 50 ∧
      (makeRequest 2 failThenOkResp 0).endTime - 0 = 1100 ∧
      (makeRequest 2 failThenOkResp 0).outcome.responseTime
        ≠ (makeRequest 2 failThenOkResp 0).endTime - 0 := by
  decide

/-- C8 (amended): the duration reported in an outcome equals the elapsed
time of the final physical attempt alone — for failures, the last
(`maxRetries`-th) attempt — and coincides with the wall-clock time from
the first attempt's start only when the request succeeded without
retries. -/
theorem reported_duration_is_last_attempt (maxRetries t0 : Nat)
    (resp : Nat → AttemptResult) :
    ((makeRequest maxRetries resp t0).outcome.success = true →
        (makeRequest maxRetries resp t0).outcome.responseTime
          = (resp (makeRequest maxRetries resp t0).outcome.retries).duration ∧
        ((makeRequest maxRetries resp t0).outcome.retries = 0 →
          (makeRequest maxRetries resp t0).outcome.responseTime
            = (makeRequest maxRetries resp t0).endTime - t0)) ∧
    ((makeRequest maxRetries resp t0).outcome.success = false →
        (makeRequest maxRetries resp t0).outcome.responseTime
          = (resp maxRetries).duration) := by
  have hs := makeRequestLoop_spec maxRetries resp (maxRetries + 1) 0 t0 0 0 (by omega)
  unfold makeRequest
  refine ⟨fun h => ?_, fun h => ?_⟩
  · obtain ⟨-, -, -, -, h5, h6⟩ := hs.1 h
    refine ⟨h5, fun h0 => ?_⟩
    rw [h5, h0, h6 h0]
    omega
  · exact (hs.2 h).2.2 (by omega)

/-- C8 witness: the amended statement applied to the scenario-A endpoint,
whose single attempt's duration (40 ms) is the reported duration. -/
theorem reported_duration_is_last_attempt_witness :
    (makeRequest 2 node7Resp 5).outcome.success = true ∧
      (makeRequest 2 node7Resp 5).outcome.responseTime
        = (node7Resp (makeRequest 2 node7Resp 5).outcome.retries).duration :=
  ⟨by decide, ((reported_duration_is_last_attempt 2 5 node7Resp).1 (by decide)).1⟩

/-- C10 counterexample: with `X-Backend-Server` present but empty and
`X-Server: node-2`, the code's backend identifier is `node-2`, while the
first present header value is the empty string. -/
theorem backend_not_first_present :
    (makeRequest 2 emptyHeaderResp 0).outcome.success = true ∧
      (makeRequest 2 emptyHeaderResp 0).outcome.backend = "node-2" ∧
      backendOfSpec ⟨some "", some "node-2", none⟩ = "" ∧
      (makeRequest 2 emptyHeaderResp 0).outcome.backend
        ≠ backendOfSpec ⟨some "", some "node-2", none⟩ := by
  decide

/-- C10 (amended): the backend identifier of a successful response is the
first header value that is present AND non-empty, in the order
`X-Backend-Server`, `X-Server`, `Server`, falling back to the `unknown`
sentinel, which differs from the `error` sentinel of failed requests. -/
theorem backend_first_nonempty (hh : Headers) (maxRetries t0 : Nat)
    (resp : Nat → AttemptResult) :
    backendOf hh = (firstNonemptyHeader hh).getD "unknown" ∧
      ((makeRequest maxRetries resp t0).outcome.success = true →
        (makeRequest maxRetries resp t0).outcome.backend
          = (firstNonemptyHeader
              (resp (makeRequest maxRetries resp t0).outcome.retries).headers).getD
              "unknown") ∧
      backendOf ⟨none, none, none⟩ = "unknown" ∧ ("unknown" : String) ≠ "error" := by
  have hbo : ∀ h : Headers, backendOf h = (firstNonemptyHeader h).getD "unknown" := by
    intro h
    unfold backendOf firstNonemptyHeader nonempty jsOrElse
    cases h.xBackendServer <;> cases h.xServer <;> cases h.server <;>
      simp <;> split_ifs <;> simp_all
  refine ⟨hbo hh, fun h => ?_, by decide, by decide⟩
  unfold makeRequest at h ⊢
  have hs := makeRequestLoop_spec maxRetries resp (maxRetries + 1) 0 t0 0 0 (by omega)
  obtain ⟨-, -, -, h4, -, -⟩ := hs.1 h
  rw [h4, hbo]

/-- C10 witness: the amended statement applied to the scenario-A
endpoint, whose backend header `node-7` is present and non-empty. -/
theorem backend_first_nonempty_witness :
    (makeRequest 2 node7Resp 0).outcome.success = true ∧
      (makeRequest 2 node7Resp 0).outcome.backend
        = (firstNonemptyHeader
            (node7Resp (makeRequest 2 node7Resp 0).outcome.retries).headers).getD
            "unknown" :=
  ⟨by decide, (backend_first_nonempty ⟨none, none, none⟩ 2 0 node7Resp).2.1 (by decide)⟩

/-- C1 witness: after recording three outcomes the state already retains
three raw samples. -/
theorem rawData_growth_unbounded_witness :
    (recordAll (List.replicate 3 ⟨true, 0, "unknown", 0, some 200⟩)).responseTimes.length
      = 3 :=
  (rawData_growth_unbounded.1 (List.replicate 3 ⟨true, 0, "unknown", 0, some 200⟩)).trans
    (by simp)

/-- C6 witness: the partition at latency 150 ms, which lies in the
`100-200ms` bin and no other. -/
theorem bucket_total_partition_witness :
    getResponseTimeBucket 150 ∈ bucketNames ∧ inBucket 150 "100-200ms" :=
  ⟨(bucket_total_partition 150).1,
    ((bucket_total_partition 150).2 "100-200ms").mpr (by decide)⟩

/-- C7 witness: a 96 % success rate with p95 = 900 ms is classified
`EXCELLENT` by the tier characterisation. -/
theorem verdict_tiers_and_scenarioE_witness :
    performanceVerdict (.num 96) (.num 900) = "EXCELLENT" :=
  ((verdict_tiers_and_scenarioE.1 96 900).1).mpr (by norm_num)

/-- C9 witness: three recorded latencies in three different buckets sum
to a histogram total of three. -/
theorem histogram_sum_matches_total_witness :
    histogramTotal [50, 150, 6000] = 3 :=
  (histogram_sum_matches_total [50, 150, 6000] []).1.trans (by rfl)
